import Mathlib

/-!
Shallow embedding of the radar projection core of Elite-Radar-React.

The repository's only algorithmic content is the function
`transformToRadarSpace`, which appears in two source files
(`EliteRadar3D.jsx` and `EliteRadarDemo.jsx`) and once more in a markdown
document.  JavaScript numbers are modelled as real numbers; `Math.atan2`,
`Math.sqrt`, `Math.sin`, `Math.cos`, `Math.min` are modelled by the
corresponding real functions.  `THREE.Quaternion.invert` (which THREE
implements as conjugation, assuming a unit quaternion) and
`THREE.Vector3.applyQuaternion` are embedded from their THREE.js sources.
-/

noncomputable section

/-- A 3-component vector of real coordinates (`THREE.Vector3` / a JS
`[x, y, z]` array). -/
structure Vec3 where
  x : ℝ
  y : ℝ
  z : ℝ

/-- A quaternion (`THREE.Quaternion`), stored as `(x, y, z, w)`. -/
structure Quat where
  x : ℝ
  y : ℝ
  z : ℝ
  w : ℝ

/-- Embedding of `THREE.Quaternion.prototype.invert`: conjugation (THREE assumes the
quaternion has unit length). -/
def Quat.invert (q : Quat) : Quat :=
  ⟨-q.x, -q.y, -q.z, q.w⟩

/-- Embedding of `THREE.Vector3.prototype.applyQuaternion`, from the THREE.js
source: `t = 2 * cross(q.xyz, v)`; result `v + q.w * t + cross(q.xyz, t)`. -/
def Vec3.applyQuaternion (v : Vec3) (q : Quat) : Vec3 :=
  let tx := 2 * (q.y * v.z - q.z * v.y)
  let ty := 2 * (q.z * v.x - q.x * v.z)
  let tz := 2 * (q.x * v.y - q.y * v.x)
  ⟨v.x + q.w * tx + q.y * tz - q.z * ty,
   v.y + q.w * ty + q.z * tx - q.x * tz,
   v.z + q.w * tz + q.x * ty - q.y * tx⟩

/-- Embedding of `Math.atan2 y x`, by the standard piecewise definition used by
JavaScript engines (`atan2 0 0 = 0`; signed zeros are not modelled, real
zero behaves like `+0`). -/
def atan2 (y x : ℝ) : ℝ :=
  if 0 < x then Real.arctan (y / x)
  else if x = 0 then
    if 0 < y then Real.pi / 2
    else if y < 0 then -(Real.pi / 2)
    else 0
  else
    if 0 ≤ y then Real.arctan (y / x) + Real.pi
    else Real.arctan (y / x) - Real.pi

/-- A tracked object as consumed by both transforms: the fields of the demo
contact records (`id`, `position`, `type`, `selected`). -/
structure Contact where
  id : String
  position : Vec3
  type : String
  selected : Bool

/-- The `options` argument of `transformToRadarSpace` in `EliteRadar3D.jsx`,
with the defaults of its destructuring pattern. -/
structure RadarOptions where
  playerPosition : Vec3 := ⟨0, 0, 0⟩
  playerQuaternion : Quat := ⟨0, 0, 0, 1⟩
  maxRange : ℝ := 5000
  radarRadius : ℝ := 1
  shipRelative : Bool := true

/-- The record returned by `transformToRadarSpace` in `EliteRadar3D.jsx`:
the spread of the input contact plus the four computed fields.  `isAbove`
(`relY > 0`, a JS boolean) is modelled as a proposition. -/
structure RadarContact where
  id : String
  position : Vec3
  type : String
  selected : Bool
  radarPosition : Vec3
  basePosition : Vec3
  normalizedDistance : ℝ
  isAbove : Prop

namespace EliteRadar3D

/-- Lines 61-72 of `src/EliteRadar3D.jsx`: the position of the contact
relative to the player, rotated into the player's frame when
`shipRelative` is set (the quaternion is inverted, THREE-style, before it
is applied). -/
def relPosition (contact : Contact) (options : RadarOptions) : Vec3 :=
  let relX0 := contact.position.x - options.playerPosition.x
  let relY0 := contact.position.y - options.playerPosition.y
  let relZ0 := contact.position.z - options.playerPosition.z
  if options.shipRelative then
    Vec3.applyQuaternion ⟨relX0, relY0, relZ0⟩ options.playerQuaternion.invert
  else
    ⟨relX0, relY0, relZ0⟩

/-- Function `transformToRadarSpace` from `src/EliteRadar3D.jsx` (lines 51-96),
embedded statement by statement (the relative-position block is factored
out as `relPosition`). -/
def transformToRadarSpace (contact : Contact) (options : RadarOptions) : RadarContact :=
  let rel : Vec3 := relPosition contact options
  let relX := rel.x
  let relY := rel.y
  let relZ := rel.z
  let distance := Real.sqrt (relX * relX + relY * relY + relZ * relZ)
  let normalizedDist := min (distance / options.maxRange) 1
  let horizontalDist := Real.sqrt (relX * relX + relZ * relZ)
  let theta := atan2 relX relZ
  let phi := atan2 relY horizontalDist
  let radarHorizontalDist := normalizedDist * options.radarRadius
  let radarX := radarHorizontalDist * Real.sin theta
  let radarZ := radarHorizontalDist * Real.cos theta
  let radarY := normalizedDist * Real.sin phi * options.radarRadius * 0.5
  { id := contact.id
    position := contact.position
    type := contact.type
    selected := contact.selected
    radarPosition := ⟨radarX, radarY, radarZ⟩
    basePosition := ⟨radarX, 0, radarZ⟩
    normalizedDistance := normalizedDist
    isAbove := relY > 0 }

end EliteRadar3D

/-- The `options` argument of `transformToRadarSpace` in
`EliteRadarDemo.jsx`, with the defaults of its destructuring pattern. -/
structure DemoOptions where
  maxRange : ℝ := 5000
  radarRadius : ℝ := 1

/-- The record returned by `transformToRadarSpace` in `EliteRadarDemo.jsx`:
the spread of the input contact plus three computed fields (this copy does
not add `isAbove`). -/
structure DemoRadarContact where
  id : String
  position : Vec3
  type : String
  selected : Bool
  radarPosition : Vec3
  basePosition : Vec3
  normalizedDistance : ℝ

namespace EliteRadarDemo

/-- Function `transformToRadarSpace` from `src/EliteRadarDemo.jsx` (lines 43-64),
embedded statement by statement: the contact position is used directly as
the relative position (no observer, no rotation). -/
def transformToRadarSpace (contact : Contact) (options : DemoOptions) : DemoRadarContact :=
  let relX := contact.position.x
  let relY := contact.position.y
  let relZ := contact.position.z
  let distance := Real.sqrt (relX * relX + relY * relY + relZ * relZ)
  let normalizedDist := min (distance / options.maxRange) 1
  let horizontalDist := Real.sqrt (relX * relX + relZ * relZ)
  let theta := atan2 relX relZ
  let phi := atan2 relY horizontalDist
  let radarHorizontalDist := normalizedDist * options.radarRadius
  let radarX := radarHorizontalDist * Real.sin theta
  let radarZ := radarHorizontalDist * Real.cos theta
  let radarY := normalizedDist * Real.sin phi * options.radarRadius * 0.5
  { id := contact.id
    position := contact.position
    type := contact.type
    selected := contact.selected
    radarPosition := ⟨radarX, radarY, radarZ⟩
    basePosition := ⟨radarX, 0, radarZ⟩
    normalizedDistance := normalizedDist }

end EliteRadarDemo

/-! ## Helper lemmas -/

/-- Applying the inverse of the identity quaternion `(0, 0, 0, 1)` leaves a
vector unchanged. -/
lemma applyQuaternion_identity_invert (v : Vec3) :
    Vec3.applyQuaternion v (Quat.invert ⟨0, 0, 0, 1⟩) = v := by
  cases v with
  | mk x y z => simp [Vec3.applyQuaternion, Quat.invert]

/-- Applying any quaternion to the zero vector yields the zero vector. -/
lemma applyQuaternion_zero (q : Quat) :
    Vec3.applyQuaternion ⟨0, 0, 0⟩ q = ⟨0, 0, 0⟩ := by
  simp [Vec3.applyQuaternion]

/-- The JS convention `Math.atan2(0, 0) = 0`. -/
lemma atan2_zero_zero : atan2 0 0 = 0 := by
  simp [atan2]

/-- For `y > 0`, `atan2 y 0 = π / 2`. -/
lemma atan2_pos_zero {y : ℝ} (hy : 0 < y) : atan2 y 0 = Real.pi / 2 := by
  simp [atan2, hy]

/-- For `x > 0`, `atan2 0 x = 0`. -/
lemma atan2_zero_pos {x : ℝ} (hx : 0 < x) : atan2 0 x = 0 := by
  simp [atan2, hx]

/-- For `x < 0`, `atan2 0 x = π`. -/
lemma atan2_zero_neg {x : ℝ} (hx : x < 0) : atan2 0 x = Real.pi := by
  have h1 : ¬ 0 < x := not_lt.mpr hx.le
  simp [atan2, h1, hx.ne]

/-- The `normalizedDistance` field of the main transform, in closed form. -/
lemma normalizedDistance_eq (c : Contact) (o : RadarOptions) :
    (EliteRadar3D.transformToRadarSpace c o).normalizedDistance =
      min (Real.sqrt ((EliteRadar3D.relPosition c o).x * (EliteRadar3D.relPosition c o).x +
        (EliteRadar3D.relPosition c o).y * (EliteRadar3D.relPosition c o).y +
        (EliteRadar3D.relPosition c o).z * (EliteRadar3D.relPosition c o).z) /
          o.maxRange) 1 := rfl

/-- For a positive `maxRange`, `normalizedDistance` is nonnegative. -/
lemma normalizedDistance_nonneg (c : Contact) (o : RadarOptions)
    (hm : 0 < o.maxRange) :
    0 ≤ (EliteRadar3D.transformToRadarSpace c o).normalizedDistance := by
  rw [normalizedDistance_eq]
  exact le_min (div_nonneg (Real.sqrt_nonneg _) hm.le) zero_le_one

/-- The field `normalizedDistance` never exceeds `1`. -/
lemma normalizedDistance_le_one (c : Contact) (o : RadarOptions) :
    (EliteRadar3D.transformToRadarSpace c o).normalizedDistance ≤ 1 := by
  rw [normalizedDistance_eq]
  exact min_le_right _ _

/-- Norm of a vector `(a * s, a * c)` with `s ^ 2 + c ^ 2 = 1` and
`0 ≤ a`. -/
lemma sqrt_scaled_sin_cos (a s c : ℝ) (ha : 0 ≤ a) (h : s ^ 2 + c ^ 2 = 1) :
    Real.sqrt ((a * s) ^ 2 + (a * c) ^ 2) = a := by
  have hsq : (a * s) ^ 2 + (a * c) ^ 2 = a ^ 2 := by
    have : (a * s) ^ 2 + (a * c) ^ 2 = a ^ 2 * (s ^ 2 + c ^ 2) := by ring
    rw [this, h, mul_one]
  rw [hsq, Real.sqrt_sq ha]

/-- The vertical display component of the main transform, in closed
form. -/
lemma radarPosition_y_eq (c : Contact) (o : RadarOptions) :
    (EliteRadar3D.transformToRadarSpace c o).radarPosition.y =
      (EliteRadar3D.transformToRadarSpace c o).normalizedDistance *
        Real.sin (atan2 (EliteRadar3D.relPosition c o).y
          (Real.sqrt ((EliteRadar3D.relPosition c o).x * (EliteRadar3D.relPosition c o).x +
            (EliteRadar3D.relPosition c o).z * (EliteRadar3D.relPosition c o).z))) *
        o.radarRadius * 0.5 := rfl

/-- The first horizontal display component of the main transform, in
closed form. -/
lemma radarPosition_x_eq (c : Contact) (o : RadarOptions) :
    (EliteRadar3D.transformToRadarSpace c o).radarPosition.x =
      (EliteRadar3D.transformToRadarSpace c o).normalizedDistance * o.radarRadius *
        Real.sin (atan2 (EliteRadar3D.relPosition c o).x (EliteRadar3D.relPosition c o).z) :=
  rfl

/-- The second horizontal display component of the main transform, in
closed form. -/
lemma radarPosition_z_eq (c : Contact) (o : RadarOptions) :
    (EliteRadar3D.transformToRadarSpace c o).radarPosition.z =
      (EliteRadar3D.transformToRadarSpace c o).normalizedDistance * o.radarRadius *
        Real.cos (atan2 (EliteRadar3D.relPosition c o).x (EliteRadar3D.relPosition c o).z) :=
  rfl

/-- With the player at the origin and the identity quaternion, the
relative position is the contact position itself. -/
lemma relPosition_origin_identity (c : Contact) (m r : ℝ) :
    EliteRadar3D.relPosition c ⟨⟨0, 0, 0⟩, ⟨0, 0, 0, 1⟩, m, r, true⟩ = c.position := by
  simp [EliteRadar3D.relPosition, applyQuaternion_identity_invert]

/-! ## Claim theorems -/

/-- Claim C1: for every contact and every options record with
`maxRange > 0`, the `normalizedDistance` returned by
`transformToRadarSpace` lies in `[0, 1]`; and whenever the Euclidean
distance of the relative position is at least `maxRange`,
`normalizedDistance` equals exactly `1`. -/
theorem C1_normalizedDistance_unit_interval_and_edge_clamp
    (c : Contact) (o : RadarOptions) (hm : 0 < o.maxRange) :
    (0 ≤ (EliteRadar3D.transformToRadarSpace c o).normalizedDistance ∧
      (EliteRadar3D.transformToRadarSpace c o).normalizedDistance ≤ 1) ∧
    (o.maxRange ≤
        Real.sqrt ((EliteRadar3D.relPosition c o).x * (EliteRadar3D.relPosition c o).x +
          (EliteRadar3D.relPosition c o).y * (EliteRadar3D.relPosition c o).y +
          (EliteRadar3D.relPosition c o).z * (EliteRadar3D.relPosition c o).z) →
      (EliteRadar3D.transformToRadarSpace c o).normalizedDistance = 1) := by
  refine ⟨⟨normalizedDistance_nonneg c o hm, normalizedDistance_le_one c o⟩, ?_⟩
  intro h
  rw [normalizedDistance_eq]
  exact min_eq_right ((one_le_div hm).mpr h)

/-- Witness for C1 at the contact position `(3, 0, 4)` with
`maxRange = 5` (distance exactly `maxRange`). -/
theorem C1_witness :
    (0:ℝ) < 5 ∧
    ((0 ≤ (EliteRadar3D.transformToRadarSpace ⟨"w", ⟨3, 0, 4⟩, "neutral", false⟩
        ⟨⟨0, 0, 0⟩, ⟨0, 0, 0, 1⟩, 5, 1, false⟩).normalizedDistance ∧
      (EliteRadar3D.transformToRadarSpace ⟨"w", ⟨3, 0, 4⟩, "neutral", false⟩
        ⟨⟨0, 0, 0⟩, ⟨0, 0, 0, 1⟩, 5, 1, false⟩).normalizedDistance ≤ 1) ∧
    ((5:ℝ) ≤
        Real.sqrt ((EliteRadar3D.relPosition ⟨"w", ⟨3, 0, 4⟩, "neutral", false⟩
            ⟨⟨0, 0, 0⟩, ⟨0, 0, 0, 1⟩, 5, 1, false⟩).x *
          (EliteRadar3D.relPosition ⟨"w", ⟨3, 0, 4⟩, "neutral", false⟩
            ⟨⟨0, 0, 0⟩, ⟨0, 0, 0, 1⟩, 5, 1, false⟩).x +
          (EliteRadar3D.relPosition ⟨"w", ⟨3, 0, 4⟩, "neutral", false⟩
            ⟨⟨0, 0, 0⟩, ⟨0, 0, 0, 1⟩, 5, 1, false⟩).y *
          (EliteRadar3D.relPosition ⟨"w", ⟨3, 0, 4⟩, "neutral", false⟩
            ⟨⟨0, 0, 0⟩, ⟨0, 0, 0, 1⟩, 5, 1, false⟩).y +
          (EliteRadar3D.relPosition ⟨"w", ⟨3, 0, 4⟩, "neutral", false⟩
            ⟨⟨0, 0, 0⟩, ⟨0, 0, 0, 1⟩, 5, 1, false⟩).z *
          (EliteRadar3D.relPosition ⟨"w", ⟨3, 0, 4⟩, "neutral", false⟩
            ⟨⟨0, 0, 0⟩, ⟨0, 0, 0, 1⟩, 5, 1, false⟩).z) →
      (EliteRadar3D.transformToRadarSpace ⟨"w", ⟨3, 0, 4⟩, "neutral", false⟩
        ⟨⟨0, 0, 0⟩, ⟨0, 0, 0, 1⟩, 5, 1, false⟩).normalizedDistance = 1)) :=
  ⟨by norm_num,
   C1_normalizedDistance_unit_interval_and_edge_clamp _ _ (by norm_num)⟩

/-- Claim C5: for every input, `basePosition` equals `radarPosition` with
the vertical component set to `0`: same `x`, vertical exactly `0`,
same `z`. -/
theorem C5_basePosition_is_flattened_radarPosition
    (c : Contact) (o : RadarOptions) :
    (EliteRadar3D.transformToRadarSpace c o).basePosition.x =
        (EliteRadar3D.transformToRadarSpace c o).radarPosition.x ∧
    (EliteRadar3D.transformToRadarSpace c o).basePosition.y = 0 ∧
    (EliteRadar3D.transformToRadarSpace c o).basePosition.z =
        (EliteRadar3D.transformToRadarSpace c o).radarPosition.z :=
  ⟨rfl, rfl, rfl⟩

/-- Claim C4: for `maxRange > 0` (and a positive display radius, as the
configuration data model requires), the Euclidean norm of the two
horizontal display components equals `normalizedDistance * radarRadius`
exactly, independent of the hard-coded `0.5` height factor, which only
scales the vertical component. -/
theorem C4_horizontal_norm_eq_normalizedDistance_times_radius
    (c : Contact) (o : RadarOptions)
    (hm : 0 < o.maxRange) (hr : 0 < o.radarRadius) :
    Real.sqrt ((EliteRadar3D.transformToRadarSpace c o).radarPosition.x ^ 2 +
        (EliteRadar3D.transformToRadarSpace c o).radarPosition.z ^ 2) =
      (EliteRadar3D.transformToRadarSpace c o).normalizedDistance * o.radarRadius := by
  have hx : (EliteRadar3D.transformToRadarSpace c o).radarPosition.x =
      (EliteRadar3D.transformToRadarSpace c o).normalizedDistance * o.radarRadius *
        Real.sin (atan2 (EliteRadar3D.relPosition c o).x (EliteRadar3D.relPosition c o).z) :=
    rfl
  have hz : (EliteRadar3D.transformToRadarSpace c o).radarPosition.z =
      (EliteRadar3D.transformToRadarSpace c o).normalizedDistance * o.radarRadius *
        Real.cos (atan2 (EliteRadar3D.relPosition c o).x (EliteRadar3D.relPosition c o).z) :=
    rfl
  rw [hx, hz]
  exact sqrt_scaled_sin_cos _ _ _
    (mul_nonneg (normalizedDistance_nonneg c o hm) hr.le)
    (Real.sin_sq_add_cos_sq _)

/-- Witness for C4 at the contact position `(2000, 800, 1500)` with the
component defaults `maxRange = 5000`, `radarRadius = 1`. -/
theorem C4_witness :
    (0:ℝ) < 5000 ∧ (0:ℝ) < 1 ∧
    Real.sqrt ((EliteRadar3D.transformToRadarSpace
          ⟨"hostile-1", ⟨2000, 800, 1500⟩, "hostile", false⟩
          ⟨⟨0, 0, 0⟩, ⟨0, 0, 0, 1⟩, 5000, 1, true⟩).radarPosition.x ^ 2 +
        (EliteRadar3D.transformToRadarSpace
          ⟨"hostile-1", ⟨2000, 800, 1500⟩, "hostile", false⟩
          ⟨⟨0, 0, 0⟩, ⟨0, 0, 0, 1⟩, 5000, 1, true⟩).radarPosition.z ^ 2) =
      (EliteRadar3D.transformToRadarSpace
          ⟨"hostile-1", ⟨2000, 800, 1500⟩, "hostile", false⟩
          ⟨⟨0, 0, 0⟩, ⟨0, 0, 0, 1⟩, 5000, 1, true⟩).normalizedDistance * (1:ℝ) :=
  ⟨by norm_num, by norm_num,
   C4_horizontal_norm_eq_normalizedDistance_times_radius _ _
     (by norm_num) (by norm_num)⟩

/-- Claim C10: for `maxRange > 0` (and a positive display radius), the
absolute vertical display component is at most
`0.5 * normalizedDistance * radarRadius`, hence at most
`0.5 * radarRadius`. -/
theorem C10_vertical_component_bounded
    (c : Contact) (o : RadarOptions)
    (hm : 0 < o.maxRange) (hr : 0 < o.radarRadius) :
    |(EliteRadar3D.transformToRadarSpace c o).radarPosition.y| ≤
        0.5 * (EliteRadar3D.transformToRadarSpace c o).normalizedDistance * o.radarRadius ∧
    |(EliteRadar3D.transformToRadarSpace c o).radarPosition.y| ≤ 0.5 * o.radarRadius := by
  have hnd := normalizedDistance_nonneg c o hm
  have hnd1 := normalizedDistance_le_one c o
  have hs : |Real.sin (atan2 (EliteRadar3D.relPosition c o).y
      (Real.sqrt ((EliteRadar3D.relPosition c o).x * (EliteRadar3D.relPosition c o).x +
        (EliteRadar3D.relPosition c o).z * (EliteRadar3D.relPosition c o).z)))| ≤ 1 :=
    abs_le.mpr ⟨Real.neg_one_le_sin _, Real.sin_le_one _⟩
  have h1 : |(EliteRadar3D.transformToRadarSpace c o).radarPosition.y| ≤
      0.5 * (EliteRadar3D.transformToRadarSpace c o).normalizedDistance * o.radarRadius := by
    rw [radarPosition_y_eq, abs_mul, abs_mul, abs_mul,
      abs_of_nonneg hnd, abs_of_nonneg hr.le]
    have h05 : |(0.5:ℝ)| = 0.5 := by norm_num
    rw [h05]
    nlinarith [mul_nonneg (mul_nonneg hnd hr.le) (sub_nonneg.mpr hs)]
  refine ⟨h1, h1.trans ?_⟩
  nlinarith

/-- Witness for C10 at the contact position `(800, 1200, 400)` with the
component defaults. -/
theorem C10_witness :
    (0:ℝ) < 5000 ∧ (0:ℝ) < 1 ∧
    (|(EliteRadar3D.transformToRadarSpace
          ⟨"missile-1", ⟨800, 1200, 400⟩, "missile", false⟩
          ⟨⟨0, 0, 0⟩, ⟨0, 0, 0, 1⟩, 5000, 1, true⟩).radarPosition.y| ≤
        0.5 * (EliteRadar3D.transformToRadarSpace
          ⟨"missile-1", ⟨800, 1200, 400⟩, "missile", false⟩
          ⟨⟨0, 0, 0⟩, ⟨0, 0, 0, 1⟩, 5000, 1, true⟩).normalizedDistance * (1:ℝ) ∧
      |(EliteRadar3D.transformToRadarSpace
          ⟨"missile-1", ⟨800, 1200, 400⟩, "missile", false⟩
          ⟨⟨0, 0, 0⟩, ⟨0, 0, 0, 1⟩, 5000, 1, true⟩).radarPosition.y| ≤ 0.5 * (1:ℝ)) :=
  ⟨by norm_num, by norm_num,
   C10_vertical_component_bounded _ _ (by norm_num) (by norm_num)⟩

/-- Claim C8: the two source copies of the transform are equivalent: for
every contact, `maxRange` and `radarRadius`, the `EliteRadar3D.jsx`
version invoked with player position `(0, 0, 0)` and identity quaternion
`(0, 0, 0, 1)` returns the same `radarPosition`, `basePosition` and
`normalizedDistance` as the `EliteRadarDemo.jsx` version. -/
theorem C8_duplicate_transforms_agree (c : Contact) (m r : ℝ) :
    (EliteRadar3D.transformToRadarSpace c
        ⟨⟨0, 0, 0⟩, ⟨0, 0, 0, 1⟩, m, r, true⟩).radarPosition =
      (EliteRadarDemo.transformToRadarSpace c ⟨m, r⟩).radarPosition ∧
    (EliteRadar3D.transformToRadarSpace c
        ⟨⟨0, 0, 0⟩, ⟨0, 0, 0, 1⟩, m, r, true⟩).basePosition =
      (EliteRadarDemo.transformToRadarSpace c ⟨m, r⟩).basePosition ∧
    (EliteRadar3D.transformToRadarSpace c
        ⟨⟨0, 0, 0⟩, ⟨0, 0, 0, 1⟩, m, r, true⟩).normalizedDistance =
      (EliteRadarDemo.transformToRadarSpace c ⟨m, r⟩).normalizedDistance := by
  refine ⟨?_, ?_, ?_⟩ <;>
    simp only [EliteRadar3D.transformToRadarSpace, EliteRadarDemo.transformToRadarSpace,
      relPosition_origin_identity]

/-- Claim C6: for a contact at the player's exact position (relative
position `(0, 0, 0)`), with the `atan2 0 0 = 0` convention, the transform
yields `normalizedDistance = 0` and zero display and base positions. -/
theorem C6_contact_at_observer_maps_to_center
    (c : Contact) (o : RadarOptions) (_hm : 0 < o.maxRange)
    (hpos : c.position = o.playerPosition) :
    atan2 0 0 = 0 ∧
    (EliteRadar3D.transformToRadarSpace c o).normalizedDistance = 0 ∧
    (EliteRadar3D.transformToRadarSpace c o).radarPosition = ⟨0, 0, 0⟩ ∧
    (EliteRadar3D.transformToRadarSpace c o).basePosition = ⟨0, 0, 0⟩ := by
  have hrel : EliteRadar3D.relPosition c o = ⟨0, 0, 0⟩ := by
    simp [EliteRadar3D.relPosition, hpos, applyQuaternion_zero]
  have hnd : (EliteRadar3D.transformToRadarSpace c o).normalizedDistance = 0 := by
    rw [normalizedDistance_eq, hrel]
    norm_num
  refine ⟨atan2_zero_zero, hnd, ?_, ?_⟩ <;>
    · simp only [EliteRadar3D.transformToRadarSpace, hrel]
      norm_num [Real.sqrt_zero, min_def]

/-- Claim C9: both copies of `transformToRadarSpace` return the input
contact record with only the computed fields added; `id`, `position`,
`type` and `selected` appear unchanged in the output. -/
theorem C9_contact_fields_preserved
    (c : Contact) (o : RadarOptions) (od : DemoOptions) :
    ((EliteRadar3D.transformToRadarSpace c o).id = c.id ∧
     (EliteRadar3D.transformToRadarSpace c o).position = c.position ∧
     (EliteRadar3D.transformToRadarSpace c o).type = c.type ∧
     (EliteRadar3D.transformToRadarSpace c o).selected = c.selected) ∧
    ((EliteRadarDemo.transformToRadarSpace c od).id = c.id ∧
     (EliteRadarDemo.transformToRadarSpace c od).position = c.position ∧
     (EliteRadarDemo.transformToRadarSpace c od).type = c.type ∧
     (EliteRadarDemo.transformToRadarSpace c od).selected = c.selected) :=
  ⟨⟨rfl, rfl, rfl, rfl⟩, ⟨rfl, rfl, rfl, rfl⟩⟩

/-- Witness for C6: a contact at the player position `(1, 2, 3)` with the
component defaults. -/
theorem C6_witness :
    (0:ℝ) < 5000 ∧
    (atan2 0 0 = 0 ∧
     (EliteRadar3D.transformToRadarSpace ⟨"w", ⟨1, 2, 3⟩, "neutral", false⟩
        ⟨⟨1, 2, 3⟩, ⟨0, 0, 0, 1⟩, 5000, 1, true⟩).normalizedDistance = 0 ∧
     (EliteRadar3D.transformToRadarSpace ⟨"w", ⟨1, 2, 3⟩, "neutral", false⟩
        ⟨⟨1, 2, 3⟩, ⟨0, 0, 0, 1⟩, 5000, 1, true⟩).radarPosition = ⟨0, 0, 0⟩ ∧
     (EliteRadar3D.transformToRadarSpace ⟨"w", ⟨1, 2, 3⟩, "neutral", false⟩
        ⟨⟨1, 2, 3⟩, ⟨0, 0, 0, 1⟩, 5000, 1, true⟩).basePosition = ⟨0, 0, 0⟩) :=
  ⟨by norm_num,
   C6_contact_at_observer_maps_to_center _ _ (by norm_num) rfl⟩

/-- Counterexample for C2: with the invalid configuration
`maxRange = -1` the transform does not fail; it returns a definite record
whose `normalizedDistance` is `-3` and whose display position lies far
outside the display. -/
theorem C2_counterexample :
    (EliteRadar3D.transformToRadarSpace ⟨"c", ⟨0, 3, 0⟩, "neutral", false⟩
        ⟨⟨0, 0, 0⟩, ⟨0, 0, 0, 1⟩, -1, 1, false⟩).normalizedDistance = -3 ∧
    (EliteRadar3D.transformToRadarSpace ⟨"c", ⟨0, 3, 0⟩, "neutral", false⟩
        ⟨⟨0, 0, 0⟩, ⟨0, 0, 0, 1⟩, -1, 1, false⟩).radarPosition.z = -3 := by
  have hrel : EliteRadar3D.relPosition ⟨"c", ⟨0, 3, 0⟩, "neutral", false⟩
      ⟨⟨0, 0, 0⟩, ⟨0, 0, 0, 1⟩, -1, 1, false⟩ = ⟨0, 3, 0⟩ := by
    simp [EliteRadar3D.relPosition]
  have h9 : Real.sqrt ((0:ℝ) * 0 + 3 * 3 + 0 * 0) = 3 := by
    rw [show ((0:ℝ) * 0 + 3 * 3 + 0 * 0) = 3 ^ 2 by norm_num]
    exact Real.sqrt_sq (by norm_num)
  have hnd : (EliteRadar3D.transformToRadarSpace ⟨"c", ⟨0, 3, 0⟩, "neutral", false⟩
      ⟨⟨0, 0, 0⟩, ⟨0, 0, 0, 1⟩, -1, 1, false⟩).normalizedDistance = -3 := by
    rw [normalizedDistance_eq, hrel]
    simp only []
    rw [h9]
    norm_num [min_def]
  refine ⟨hnd, ?_⟩
  rw [radarPosition_z_eq, hnd, hrel]
  simp [atan2_zero_zero]

/-- Claim C2 (amended): the transform performs no input validation and
never fails; for any options with `maxRange < 0` it still returns a
record, whose `normalizedDistance` is at most `0` (strictly negative when
the contact is away from the player) instead of an error. -/
theorem C2_amended_no_validation (c : Contact) (o : RadarOptions)
    (hm : o.maxRange < 0) :
    (EliteRadar3D.transformToRadarSpace c o).normalizedDistance ≤ 0 := by
  rw [normalizedDistance_eq]
  refine le_trans (min_le_left _ _) ?_
  exact div_nonpos_of_nonneg_of_nonpos (Real.sqrt_nonneg _) hm.le

/-- Witness for the amended C2 at `maxRange = -1`. -/
theorem C2_amended_witness :
    (-1:ℝ) < 0 ∧
    (EliteRadar3D.transformToRadarSpace ⟨"c", ⟨0, 3, 0⟩, "neutral", false⟩
        ⟨⟨0, 0, 0⟩, ⟨0, 0, 0, 1⟩, -1, 1, false⟩).normalizedDistance ≤ 0 :=
  ⟨by norm_num, C2_amended_no_validation _ _ (by norm_num)⟩

/-- Counterexample for C3: for the overhead contact `(0, 5000, 0)` at
`maxRange = 5000`, `radarRadius = 1`, the second horizontal display
component is `1` (the display edge), not `0` as claimed. -/
theorem C3_counterexample :
    (EliteRadar3D.transformToRadarSpace ⟨"c", ⟨0, 5000, 0⟩, "neutral", false⟩
        ⟨⟨0, 0, 0⟩, ⟨0, 0, 0, 1⟩, 5000, 1, true⟩).radarPosition.z = 1 ∧
    (EliteRadar3D.transformToRadarSpace ⟨"c", ⟨0, 5000, 0⟩, "neutral", false⟩
        ⟨⟨0, 0, 0⟩, ⟨0, 0, 0, 1⟩, 5000, 1, true⟩).radarPosition.z ≠ 0 := by
  have hrel := relPosition_origin_identity ⟨"c", ⟨0, 5000, 0⟩, "neutral", false⟩ 5000 1
  have hd : Real.sqrt ((0:ℝ) * 0 + 5000 * 5000 + 0 * 0) = 5000 := by
    rw [show ((0:ℝ) * 0 + 5000 * 5000 + 0 * 0) = 5000 ^ 2 by norm_num]
    exact Real.sqrt_sq (by norm_num)
  have hnd : (EliteRadar3D.transformToRadarSpace ⟨"c", ⟨0, 5000, 0⟩, "neutral", false⟩
      ⟨⟨0, 0, 0⟩, ⟨0, 0, 0, 1⟩, 5000, 1, true⟩).normalizedDistance = 1 := by
    rw [normalizedDistance_eq, hrel]
    simp only []
    rw [hd]
    norm_num
  have hz : (EliteRadar3D.transformToRadarSpace ⟨"c", ⟨0, 5000, 0⟩, "neutral", false⟩
      ⟨⟨0, 0, 0⟩, ⟨0, 0, 0, 1⟩, 5000, 1, true⟩).radarPosition.z = 1 := by
    rw [radarPosition_z_eq, hnd, hrel]
    simp [atan2_zero_zero]
  exact ⟨hz, by rw [hz]; norm_num⟩

/-- Claim C3 (amended): for a contact directly above the player at
distance `maxRange` (position `(0, maxRange, 0)`, player at the origin,
identity quaternion), the transform yields `horizontalDistance = 0`,
elevation `phi = π / 2`, vertical display component
`radarRadius * 0.5`, and first horizontal component `0` — but the second
horizontal component is `radarRadius`, not `0`: the azimuth
`atan2 0 0 = 0` and the horizontal display radius
`normalizedDistance * radarRadius` carry no `cos phi` factor, so the
overhead contact is displaced to the display edge along the `z` axis. -/
theorem C3_overhead_contact_amended (i ty : String) (sel : Bool)
    (m r : ℝ) (hm : 0 < m) :
    Real.sqrt ((EliteRadar3D.relPosition ⟨i, ⟨0, m, 0⟩, ty, sel⟩
          ⟨⟨0, 0, 0⟩, ⟨0, 0, 0, 1⟩, m, r, true⟩).x *
        (EliteRadar3D.relPosition ⟨i, ⟨0, m, 0⟩, ty, sel⟩
          ⟨⟨0, 0, 0⟩, ⟨0, 0, 0, 1⟩, m, r, true⟩).x +
        (EliteRadar3D.relPosition ⟨i, ⟨0, m, 0⟩, ty, sel⟩
          ⟨⟨0, 0, 0⟩, ⟨0, 0, 0, 1⟩, m, r, true⟩).z *
        (EliteRadar3D.relPosition ⟨i, ⟨0, m, 0⟩, ty, sel⟩
          ⟨⟨0, 0, 0⟩, ⟨0, 0, 0, 1⟩, m, r, true⟩).z) = 0 ∧
    atan2 m 0 = Real.pi / 2 ∧
    (EliteRadar3D.transformToRadarSpace ⟨i, ⟨0, m, 0⟩, ty, sel⟩
        ⟨⟨0, 0, 0⟩, ⟨0, 0, 0, 1⟩, m, r, true⟩).radarPosition.y = r * 0.5 ∧
    (EliteRadar3D.transformToRadarSpace ⟨i, ⟨0, m, 0⟩, ty, sel⟩
        ⟨⟨0, 0, 0⟩, ⟨0, 0, 0, 1⟩, m, r, true⟩).radarPosition.x = 0 ∧
    (EliteRadar3D.transformToRadarSpace ⟨i, ⟨0, m, 0⟩, ty, sel⟩
        ⟨⟨0, 0, 0⟩, ⟨0, 0, 0, 1⟩, m, r, true⟩).radarPosition.z = r := by
  have hrel := relPosition_origin_identity ⟨i, ⟨0, m, 0⟩, ty, sel⟩ m r
  have hhd : Real.sqrt ((0:ℝ) * 0 + 0 * 0) = 0 := by norm_num
  have hd : Real.sqrt ((0:ℝ) * 0 + m * m + 0 * 0) = m := by
    rw [show ((0:ℝ) * 0 + m * m + 0 * 0) = m * m by ring]
    exact Real.sqrt_mul_self hm.le
  have hnd : (EliteRadar3D.transformToRadarSpace ⟨i, ⟨0, m, 0⟩, ty, sel⟩
      ⟨⟨0, 0, 0⟩, ⟨0, 0, 0, 1⟩, m, r, true⟩).normalizedDistance = 1 := by
    rw [normalizedDistance_eq, hrel]
    simp only []
    rw [hd, div_self hm.ne']
    norm_num
  refine ⟨?_, atan2_pos_zero hm, ?_, ?_, ?_⟩
  · rw [hrel]
    exact hhd
  · rw [radarPosition_y_eq, hnd, hrel]
    simp only []
    rw [hhd, atan2_pos_zero hm, Real.sin_pi_div_two]
    ring
  · rw [radarPosition_x_eq, hnd, hrel]
    simp [atan2_zero_zero]
  · rw [radarPosition_z_eq, hnd, hrel]
    simp [atan2_zero_zero]

/-- Witness for the amended C3 at `maxRange = 5000`, `radarRadius = 1`. -/
theorem C3_amended_witness :
    (0:ℝ) < 5000 ∧
    ((EliteRadar3D.transformToRadarSpace ⟨"w", ⟨0, 5000, 0⟩, "hostile", true⟩
        ⟨⟨0, 0, 0⟩, ⟨0, 0, 0, 1⟩, 5000, 1, true⟩).radarPosition.y = 1 * 0.5 ∧
     (EliteRadar3D.transformToRadarSpace ⟨"w", ⟨0, 5000, 0⟩, "hostile", true⟩
        ⟨⟨0, 0, 0⟩, ⟨0, 0, 0, 1⟩, 5000, 1, true⟩).radarPosition.x = 0 ∧
     (EliteRadar3D.transformToRadarSpace ⟨"w", ⟨0, 5000, 0⟩, "hostile", true⟩
        ⟨⟨0, 0, 0⟩, ⟨0, 0, 0, 1⟩, 5000, 1, true⟩).radarPosition.z = 1) :=
  ⟨by norm_num,
   ((C3_overhead_contact_amended "w" "hostile" true 5000 1
      (by norm_num)).2.2 : _)⟩

/-- Counterexample for C7: for the contact `(0, 0, -5000)` at
`maxRange = 5000`, the azimuth `atan2 relX relZ` is `π`, not `0`, and
the second display component is `-radarRadius`. -/
theorem C7_counterexample :
    atan2 (EliteRadar3D.relPosition ⟨"station-1", ⟨0, 0, -5000⟩, "station", true⟩
        ⟨⟨0, 0, 0⟩, ⟨0, 0, 0, 1⟩, 5000, 1, true⟩).x
      (EliteRadar3D.relPosition ⟨"station-1", ⟨0, 0, -5000⟩, "station", true⟩
        ⟨⟨0, 0, 0⟩, ⟨0, 0, 0, 1⟩, 5000, 1, true⟩).z = Real.pi ∧
    Real.pi ≠ 0 ∧
    (EliteRadar3D.transformToRadarSpace ⟨"station-1", ⟨0, 0, -5000⟩, "station", true⟩
        ⟨⟨0, 0, 0⟩, ⟨0, 0, 0, 1⟩, 5000, 1, true⟩).radarPosition.z = -1 := by
  have hrel := relPosition_origin_identity
    ⟨"station-1", ⟨0, 0, -5000⟩, "station", true⟩ 5000 1
  have htheta : atan2 (0:ℝ) (-5000) = Real.pi := atan2_zero_neg (by norm_num)
  have hd : Real.sqrt ((0:ℝ) * 0 + 0 * 0 + -5000 * -5000) = 5000 := by
    rw [show ((0:ℝ) * 0 + 0 * 0 + -5000 * -5000) = 5000 ^ 2 by norm_num]
    exact Real.sqrt_sq (by norm_num)
  have hnd : (EliteRadar3D.transformToRadarSpace
      ⟨"station-1", ⟨0, 0, -5000⟩, "station", true⟩
      ⟨⟨0, 0, 0⟩, ⟨0, 0, 0, 1⟩, 5000, 1, true⟩).normalizedDistance = 1 := by
    rw [normalizedDistance_eq, hrel]
    simp only []
    rw [hd]
    norm_num
  refine ⟨?_, Real.pi_ne_zero, ?_⟩
  · rw [hrel]
    exact htheta
  · rw [radarPosition_z_eq, hnd, hrel]
    simp only []
    rw [htheta, Real.cos_pi]
    norm_num

/-- Claim C7 (amended): for a contact at `(0, 0, -maxRange)` with the
player at the origin and the identity quaternion, the azimuth is `π`
(the code measures azimuth from the `+z` axis, so a contact along `-z`
is at azimuth `π`), the elevation is `0`, `normalizedDistance = 1`, the
display position is `(0, 0, -radarRadius)`, and its magnitude equals
`radarRadius` exactly with zero vertical component. -/
theorem C7_behind_contact_amended (i ty : String) (sel : Bool)
    (m r : ℝ) (hm : 0 < m) (hr : 0 < r) :
    atan2 (EliteRadar3D.relPosition ⟨i, ⟨0, 0, -m⟩, ty, sel⟩
        ⟨⟨0, 0, 0⟩, ⟨0, 0, 0, 1⟩, m, r, true⟩).x
      (EliteRadar3D.relPosition ⟨i, ⟨0, 0, -m⟩, ty, sel⟩
        ⟨⟨0, 0, 0⟩, ⟨0, 0, 0, 1⟩, m, r, true⟩).z = Real.pi ∧
    atan2 (EliteRadar3D.relPosition ⟨i, ⟨0, 0, -m⟩, ty, sel⟩
        ⟨⟨0, 0, 0⟩, ⟨0, 0, 0, 1⟩, m, r, true⟩).y
      (Real.sqrt ((EliteRadar3D.relPosition ⟨i, ⟨0, 0, -m⟩, ty, sel⟩
          ⟨⟨0, 0, 0⟩, ⟨0, 0, 0, 1⟩, m, r, true⟩).x *
        (EliteRadar3D.relPosition ⟨i, ⟨0, 0, -m⟩, ty, sel⟩
          ⟨⟨0, 0, 0⟩, ⟨0, 0, 0, 1⟩, m, r, true⟩).x +
        (EliteRadar3D.relPosition ⟨i, ⟨0, 0, -m⟩, ty, sel⟩
          ⟨⟨0, 0, 0⟩, ⟨0, 0, 0, 1⟩, m, r, true⟩).z *
        (EliteRadar3D.relPosition ⟨i, ⟨0, 0, -m⟩, ty, sel⟩
          ⟨⟨0, 0, 0⟩, ⟨0, 0, 0, 1⟩, m, r, true⟩).z)) = 0 ∧
    (EliteRadar3D.transformToRadarSpace ⟨i, ⟨0, 0, -m⟩, ty, sel⟩
        ⟨⟨0, 0, 0⟩, ⟨0, 0, 0, 1⟩, m, r, true⟩).normalizedDistance = 1 ∧
    (EliteRadar3D.transformToRadarSpace ⟨i, ⟨0, 0, -m⟩, ty, sel⟩
        ⟨⟨0, 0, 0⟩, ⟨0, 0, 0, 1⟩, m, r, true⟩).radarPosition = ⟨0, 0, -r⟩ ∧
    Real.sqrt ((EliteRadar3D.transformToRadarSpace ⟨i, ⟨0, 0, -m⟩, ty, sel⟩
          ⟨⟨0, 0, 0⟩, ⟨0, 0, 0, 1⟩, m, r, true⟩).radarPosition.x ^ 2 +
        (EliteRadar3D.transformToRadarSpace ⟨i, ⟨0, 0, -m⟩, ty, sel⟩
          ⟨⟨0, 0, 0⟩, ⟨0, 0, 0, 1⟩, m, r, true⟩).radarPosition.y ^ 2 +
        (EliteRadar3D.transformToRadarSpace ⟨i, ⟨0, 0, -m⟩, ty, sel⟩
          ⟨⟨0, 0, 0⟩, ⟨0, 0, 0, 1⟩, m, r, true⟩).radarPosition.z ^ 2) = r := by
  have hrel := relPosition_origin_identity ⟨i, ⟨0, 0, -m⟩, ty, sel⟩ m r
  have htheta : atan2 (0:ℝ) (-m) = Real.pi := atan2_zero_neg (neg_lt_zero.mpr hm)
  have hhd : Real.sqrt ((0:ℝ) * 0 + -m * -m) = m := by
    rw [show ((0:ℝ) * 0 + -m * -m) = m * m by ring]
    exact Real.sqrt_mul_self hm.le
  have hd : Real.sqrt ((0:ℝ) * 0 + 0 * 0 + -m * -m) = m := by
    rw [show ((0:ℝ) * 0 + 0 * 0 + -m * -m) = m * m by ring]
    exact Real.sqrt_mul_self hm.le
  have hnd : (EliteRadar3D.transformToRadarSpace ⟨i, ⟨0, 0, -m⟩, ty, sel⟩
      ⟨⟨0, 0, 0⟩, ⟨0, 0, 0, 1⟩, m, r, true⟩).normalizedDistance = 1 := by
    rw [normalizedDistance_eq, hrel]
    simp only []
    rw [hd, div_self hm.ne']
    norm_num
  have hx : (EliteRadar3D.transformToRadarSpace ⟨i, ⟨0, 0, -m⟩, ty, sel⟩
      ⟨⟨0, 0, 0⟩, ⟨0, 0, 0, 1⟩, m, r, true⟩).radarPosition.x = 0 := by
    rw [radarPosition_x_eq, hnd, hrel]
    simp only []
    rw [htheta, Real.sin_pi]
    ring
  have hy : (EliteRadar3D.transformToRadarSpace ⟨i, ⟨0, 0, -m⟩, ty, sel⟩
      ⟨⟨0, 0, 0⟩, ⟨0, 0, 0, 1⟩, m, r, true⟩).radarPosition.y = 0 := by
    rw [radarPosition_y_eq, hnd, hrel]
    simp only []
    rw [hhd, atan2_zero_pos hm, Real.sin_zero]
    ring
  have hz : (EliteRadar3D.transformToRadarSpace ⟨i, ⟨0, 0, -m⟩, ty, sel⟩
      ⟨⟨0, 0, 0⟩, ⟨0, 0, 0, 1⟩, m, r, true⟩).radarPosition.z = -r := by
    rw [radarPosition_z_eq, hnd, hrel]
    simp only []
    rw [htheta, Real.cos_pi]
    ring
  refine ⟨by rw [hrel]; exact htheta, by rw [hrel]; exact (by rw [hhd]; exact atan2_zero_pos hm),
    hnd, ?_, ?_⟩
  · cases hC : (EliteRadar3D.transformToRadarSpace ⟨i, ⟨0, 0, -m⟩, ty, sel⟩
        ⟨⟨0, 0, 0⟩, ⟨0, 0, 0, 1⟩, m, r, true⟩).radarPosition with
    | mk a b d =>
      rw [hC] at hx hy hz
      simp_all
  · rw [hx, hy, hz]
    rw [show ((0:ℝ) ^ 2 + 0 ^ 2 + (-r) ^ 2) = r ^ 2 by ring]
    exact Real.sqrt_sq hr.le

/-- Witness for the amended C7 at `maxRange = 5000`, `radarRadius = 1`. -/
theorem C7_amended_witness :
    (0:ℝ) < 5000 ∧ (0:ℝ) < 1 ∧
    ((EliteRadar3D.transformToRadarSpace ⟨"w7", ⟨0, 0, -5000⟩, "station", false⟩
        ⟨⟨0, 0, 0⟩, ⟨0, 0, 0, 1⟩, 5000, 1, true⟩).normalizedDistance = 1 ∧
     (EliteRadar3D.transformToRadarSpace ⟨"w7", ⟨0, 0, -5000⟩, "station", false⟩
        ⟨⟨0, 0, 0⟩, ⟨0, 0, 0, 1⟩, 5000, 1, true⟩).radarPosition = ⟨0, 0, -1⟩ ∧
     Real.sqrt ((EliteRadar3D.transformToRadarSpace
          ⟨"w7", ⟨0, 0, -5000⟩, "station", false⟩
          ⟨⟨0, 0, 0⟩, ⟨0, 0, 0, 1⟩, 5000, 1, true⟩).radarPosition.x ^ 2 +
        (EliteRadar3D.transformToRadarSpace
          ⟨"w7", ⟨0, 0, -5000⟩, "station", false⟩
          ⟨⟨0, 0, 0⟩, ⟨0, 0, 0, 1⟩, 5000, 1, true⟩).radarPosition.y ^ 2 +
        (EliteRadar3D.transformToRadarSpace
          ⟨"w7", ⟨0, 0, -5000⟩, "station", false⟩
          ⟨⟨0, 0, 0⟩, ⟨0, 0, 0, 1⟩, 5000, 1, true⟩).radarPosition.z ^ 2) = 1) :=
  ⟨by norm_num, by norm_num,
   ((C7_behind_contact_amended "w7" "station" false 5000 1
      (by norm_num) (by norm_num)).2.2 : _)⟩

end
